import Mathlib

/-!
Shallow embedding of the CoLearn Dialogue Session Engine
(src/app/page.tsx, second snapshot, lines 1118-2540).

The React component's useState fields become an explicit `AppState`
record; every event handler becomes a state-passing function.  The
Completion Gateway (`callAI`) is abstracted by a `GatewayResult`
argument: `success t` means the awaited call returned text `t`,
`failure` means it threw.  Wall-clock values (`new Date()...`) become
explicit parameters.  Deferred `setTimeout` callbacks are returned as
data (`Deferred`) and applied separately by `applyDeferred`, mirroring
the fact that they run after the handler finishes.
-/

namespace CoLearn

/-- Message kinds of `DialogueMessage.type` in the source. -/
inductive MsgKind
  | system
  | user
  | ai
  | reflection
  | analysisRequest
deriving DecidableEq, Repr

/-- One entry of the dialogue log (`DialogueMessage` in the source);
`prompt` is only populated on reflection entries, as in the source. -/
structure DialogueMessage where
  kind : MsgKind
  content : String
  timestamp : Option String
  prompt : Option String
deriving DecidableEq, Repr

/-- The `SessionDuration` record of the source. -/
structure SessionDuration where
  minutes : Nat
  seconds : Nat
deriving DecidableEq, Repr

/-- The `studentReflections` sub-record of `SessionAnalysis`. -/
structure StudentReflections where
  contentLearning : String
  processLearning : String
deriving DecidableEq, Repr

/-- The `SessionAnalysis` record of the source. -/
structure SessionAnalysis where
  content : String
  studentReflections : StudentReflections
deriving DecidableEq, Repr

/-- All useState fields of the CoLearnInterface component, in source
order.  Timestamps are modelled as milliseconds (Nat). -/
structure AppState where
  sessionActive : Bool
  sessionLocked : Bool
  sourceText : String
  focusQuestion : String
  dialogue : List DialogueMessage
  currentInput : String
  isProcessing : Bool
  reflectionPrompts : List DialogueMessage
  showReflectionModal : Bool
  currentReflection : String
  sessionAnalysis : Option SessionAnalysis
  exchangeCount : Nat
  uploadedFileName : String
  showContinuePrompt : Bool
  showEndReflection : Bool
  endReflectionAnswers : String × String
  generatedProcessQuestion : String
  sessionStartTime : Option Nat
  sessionDuration : Option SessionDuration
  reflectionInput : String
  hiddenDocumentContent : String
  documentUploaded : Bool
  showAboutModal : Bool
deriving DecidableEq, Repr

/-- The initial values of every useState call. -/
def initialState : AppState where
  sessionActive := false
  sessionLocked := false
  sourceText := ""
  focusQuestion := ""
  dialogue := []
  currentInput := ""
  isProcessing := false
  reflectionPrompts := []
  showReflectionModal := false
  currentReflection := ""
  sessionAnalysis := none
  exchangeCount := 0
  uploadedFileName := ""
  showContinuePrompt := false
  showEndReflection := false
  endReflectionAnswers := ("", "")
  generatedProcessQuestion := ""
  sessionStartTime := none
  sessionDuration := none
  reflectionInput := ""
  hiddenDocumentContent := ""
  documentUploaded := false
  showAboutModal := false

/-- Outcome of one awaited `callAI` invocation: the returned text, or a
thrown error. -/
inductive GatewayResult
  | success (text : String)
  | failure
deriving DecidableEq, Repr

/-- Deferred `setTimeout` callbacks scheduled by `handleSendMessage`:
the 500ms stage-transition system note, the 1000ms
`triggerReflectionPrompt(newExchangeCount)` call, and the 2000ms
`setShowContinuePrompt(true)` call. -/
inductive Deferred
  | stageNote (content : String)
  | reflectTrigger (exchange : Nat)
  | continueNote
deriving DecidableEq, Repr

/-- Stage-transition note appended when the exchange count reaches 5. -/
def stageNote5 : String :=
  "🔄 Now exploring complexity and tension - expect questions that challenge assumptions and reveal different perspectives"

/-- Stage-transition note appended when the exchange count reaches 9. -/
def stageNote9 : String :=
  "🧠 Entering reflection phase - focusing on how your thinking has evolved through our dialogue"

/-- System entry content appended when the gateway call of a dialogue
turn throws. -/
def errorContinueMsg : String :=
  "Error: Unable to continue dialogue. Please try again."

/-- The reflection trigger condition of `handleSendMessage`:
`newExchangeCount === 4 || newExchangeCount === 8 ||
(newExchangeCount > 8 && newExchangeCount % 6 === 0)`. -/
def shouldTrigger (n : Nat) : Bool :=
  n == 4 || n == 8 || (decide (8 < n) && n % 6 == 0)

/-- JS `String.trim` on a character list: leading and trailing
whitespace removed. -/
def trimChars (l : List Char) : List Char :=
  ((l.dropWhile Char.isWhitespace).reverse.dropWhile Char.isWhitespace).reverse

/-- JS `String.trim`, modelled at character level. -/
def jsTrim (s : String) : String :=
  String.mk (trimChars s.data)

/-- One dialogue turn (`handleSendMessage`).  The guard
`if (!currentInput.trim() || isProcessing || sessionLocked) return;`
makes the call a silent no-op.  Otherwise the user entry is appended,
the input cleared, the processing flag set, the exchange count
incremented, the stage-transition note scheduled at counts 5 and 9, and
then the gateway result is either appended as an `ai` entry (scheduling
the reflection trigger and the continue note) or recorded as a `system`
error entry.  The processing flag is cleared on both paths. -/
def sendTurn (s : AppState) (now : String) (g : GatewayResult) :
    AppState × List Deferred :=
  if jsTrim s.currentInput = "" ∨ s.isProcessing = true ∨ s.sessionLocked = true then
    (s, [])
  else
    let userMsg : DialogueMessage := ⟨.user, s.currentInput, some now, none⟩
    let n := s.exchangeCount + 1
    let base := { s with
      dialogue := s.dialogue ++ [userMsg]
      currentInput := ""
      isProcessing := true
      exchangeCount := n }
    let stageDefs : List Deferred :=
      if n = 5 then [.stageNote stageNote5]
      else if n = 9 then [.stageNote stageNote9]
      else []
    match g with
    | .success t =>
      let s2 := { base with
        dialogue := base.dialogue ++ [⟨.ai, t, some now, none⟩]
        isProcessing := false }
      let reflDefs : List Deferred :=
        if shouldTrigger n then [.reflectTrigger n] else []
      let contDefs : List Deferred :=
        if 12 ≤ n ∧ n % 4 = 0 then [.continueNote] else []
      (s2, stageDefs ++ reflDefs ++ contDefs)
    | .failure =>
      ({ base with
        dialogue := base.dialogue ++ [⟨.system, errorContinueMsg, some now, none⟩]
        isProcessing := false }, stageDefs)

/-- Early-stage fixed reflection prompt of `triggerReflectionPrompt`. -/
def earlyReflPrompt : String :=
  "What's something that surprised you or disrupted your initial assumptions so far?"

/-- Mid-stage fixed reflection prompt of `triggerReflectionPrompt`. -/
def midReflPrompt : String :=
  "Has your view changed since the start of this dialogue? What shifted, and why?"

/-- Fallback used when the late-stage prompt generation call throws. -/
def lateFallbackPrompt : String :=
  "How has this dialogue changed the way you're thinking about the topic? What moments felt most generative or uncertain?"

/-- Model of `triggerReflectionPrompt(currentExchange)`: chooses the
stage-aware prompt (for exchanges above 8 it asks the gateway, falling
back on failure), stores it in `currentReflection`, clears the
reflection input and opens the reflection modal. -/
def triggerReflection (s : AppState) (currentExchange : Nat)
    (g : GatewayResult) : AppState :=
  let p :=
    if currentExchange ≤ 5 then earlyReflPrompt
    else if currentExchange ≤ 8 then midReflPrompt
    else match g with
      | .success t => jsTrim t
      | .failure => lateFallbackPrompt
  { s with
    currentReflection := p
    reflectionInput := ""
    showReflectionModal := true }

/-- Firing one deferred `setTimeout` callback on the current state.
None of the three callbacks checks session identity or validity before
mutating state. -/
def applyDeferred (s : AppState) (d : Deferred) (now : String)
    (g : GatewayResult) : AppState :=
  match d with
  | .stageNote c => { s with dialogue := s.dialogue ++ [⟨.system, c, some now, none⟩] }
  | .reflectTrigger n => triggerReflection s n g
  | .continueNote => { s with showContinuePrompt := true }

/-- Model of `submitReflection(reflectionText)`: builds the reflection
entry carrying the scheduler prompt (`currentReflection`) and the user
response, appends it to `reflectionPrompts` and mirrors the same object
into `dialogue`, then closes the modal and clears the prompt/input. -/
def submitReflection (s : AppState) (text : String) (now : String) : AppState :=
  let refl : DialogueMessage := ⟨.reflection, text, some now, some s.currentReflection⟩
  { s with
    reflectionPrompts := s.reflectionPrompts ++ [refl]
    dialogue := s.dialogue ++ [refl]
    showReflectionModal := false
    currentReflection := ""
    reflectionInput := "" }

/-- Error naming of the spec for a rejected lock attempt. -/
inductive LockError
  | preconditionError
deriving DecidableEq, Repr

/-- Fallback pool of `lockSession` for the generated process question. -/
def enhancedFallbacks : List String :=
  [ "Was there a moment in our exchange where your thinking changed direction or deepened? What prompted that shift?"
  , "How did engaging in dialogue (rather than just getting answers) affect the way you understood this topic?"
  , "Did any part of our conversation challenge how you usually think or talk about this subject? Why?"
  , "How did you decide when to agree, disagree, or push back on the AI's ideas? What does that say about your thinking process?"
  , "Did our dialogue help you see patterns in your own assumptions or approach? If so, which ones?"
  , "What surprised you about how your understanding evolved through this back-and-forth conversation?"
  , "How did having to articulate your thoughts to the AI change how you thought about the topic?" ]

/-- Model of the End Session operation: the UI button guard
`disabled={dialogue.length < 3}` composed with the `lockSession`
handler.  A click on the disabled button runs nothing, which the spec
names `PreconditionError`; the returned `Except.error` leaves the
caller holding the unchanged state.  On success `lockSession` sets the
locked flag, computes the duration from `sessionStartTime` (when set),
stores the generated (or fallback, chosen by `idx`) process question
and opens the end-reflection screen. -/
def lockSession (s : AppState) (endTimeMs : Nat) (g : GatewayResult)
    (idx : Nat) : Except LockError AppState :=
  if s.dialogue.length < 3 then
    .error .preconditionError
  else
    let s1 := { s with sessionLocked := true }
    let s2 :=
      match s.sessionStartTime with
      | some st =>
        let durationMs := endTimeMs - st
        { s1 with sessionDuration := some ⟨durationMs / 60000, durationMs % 60000 / 1000⟩ }
      | none => s1
    let q :=
      match g with
      | .success t => jsTrim t
      | .failure => (enhancedFallbacks.get? (idx % enhancedFallbacks.length)).getD ""
    .ok { s2 with generatedProcessQuestion := q, showEndReflection := true }

/-- Placeholder analysis stored when the analysis generation throws. -/
def analysisFailureText : String :=
  "Unable to generate analysis due to technical error. Please try again."

/-- Default used for empty end-of-session answers
(`endReflectionAnswers[i] || 'No reflection provided'`). -/
def orDefaultRefl (a : String) : String :=
  if a = "" then "No reflection provided" else a

/-- Model of `handleEndReflectionSubmit`: stores the gateway text (or
the fixed failure placeholder) as the session analysis together with
the two end answers, then closes the end-reflection screen and clears
the processing flag, unconditionally. -/
def handleEndReflectionSubmit (s : AppState) (g : GatewayResult) : AppState :=
  let refl : StudentReflections :=
    ⟨orDefaultRefl s.endReflectionAnswers.1, orDefaultRefl s.endReflectionAnswers.2⟩
  let s1 := { s with isProcessing := true }
  let s2 :=
    match g with
    | .success t => { s1 with sessionAnalysis := some ⟨t, refl⟩ }
    | .failure => { s1 with sessionAnalysis := some ⟨analysisFailureText, refl⟩ }
  { s2 with showEndReflection := false, isProcessing := false }

/-- Model of `resetSession`: clears exactly the fields listed in the
source (note: `showReflectionModal` and `currentReflection` are not
among them). -/
def resetSession (s : AppState) : AppState :=
  { s with
    uploadedFileName := ""
    hiddenDocumentContent := ""
    documentUploaded := false
    sessionActive := false
    sessionLocked := false
    dialogue := []
    reflectionPrompts := []
    sessionAnalysis := none
    exchangeCount := 0
    currentInput := ""
    sourceText := ""
    focusQuestion := ""
    showContinuePrompt := false
    showEndReflection := false
    endReflectionAnswers := ("", "")
    generatedProcessQuestion := ""
    sessionStartTime := none
    sessionDuration := none
    reflectionInput := "" }

/-- The three pedagogical stages. -/
inductive Stage
  | ground
  | stretch
  | deepen
deriving DecidableEq, Repr

/-- Stage derivation used by the continuation-prompt selection:
`newExchangeCount <= 4 ? Ground block : newExchangeCount <= 8 ?
Stretch block : Deepen block`. -/
def stageOf (n : Nat) : Stage :=
  if n ≤ 4 then .ground else if n ≤ 8 then .stretch else .deepen

/-- Phase label shown for each stage on the dialogue screen. -/
def phaseLabel : Stage → String
  | .ground => "1: Ground"
  | .stretch => "2: Stretch"
  | .deepen => "3: Deepen"

/-- Phase label computed by the dialogue screen directly from the
exchange count: `exchangeCount <= 4 ? '1: Ground' : exchangeCount <= 8
? '2: Stretch' : '3: Deepen'`. -/
def displayPhase (n : Nat) : String :=
  if n ≤ 4 then "1: Ground" else if n ≤ 8 then "2: Stretch" else "3: Deepen"

/-!
Analysis Parser: the parsing IIFE of the analysis results screen.

The split regex is `\*\*(\d+\. [^*]+)\*\*`; because `[^*]` cannot match
a star, the greedy run admits no backtracking and the regex is
equivalent to the character-level matcher `headingAt` below.  JS
`String.split` with a capturing group splices the captured heading
between the surrounding fragments, which `splitRun` reproduces.
-/

/-- Boolean prefix test on character lists. -/
def isPrefOf : List Char → List Char → Bool
  | [], _ => true
  | _ :: _, [] => false
  | p :: ps, c :: cs => p == c && isPrefOf ps cs

/-- Boolean substring test on character lists (`sub` occurs in the
second argument). -/
def containsStr (sub : List Char) : List Char → Bool
  | [] => isPrefOf sub []
  | c :: cs => isPrefOf sub (c :: cs) || containsStr sub cs

/-- Attempt to match `\*\*(\d+\. [^*]+)\*\*` at the head of the list;
returns the captured heading and the remainder after the match. -/
def headingAt : List Char → Option (List Char × List Char)
  | '*' :: '*' :: rest =>
    let ds := rest.takeWhile Char.isDigit
    let r1 := rest.dropWhile Char.isDigit
    if ds.isEmpty then none
    else
      match r1 with
      | '.' :: ' ' :: r2 =>
        let body := r2.takeWhile (fun c => c != '*')
        let r3 := r2.dropWhile (fun c => c != '*')
        if body.isEmpty then none
        else
          match r3 with
          | '*' :: '*' :: r4 => some (ds ++ '.' :: ' ' :: body, r4)
          | _ => none
      | _ => none
  | _ => none

/-- True when the heading pattern matches somewhere in the list. -/
def hasHeading : List Char → Bool
  | [] => false
  | c :: cs => (headingAt (c :: cs)).isSome || hasHeading cs

/-- JS `content.split(headingRegex)`: fragments and captured headings
alternate, scanning for the leftmost match; `fuel` bounds the number of
scanning steps (the input length always suffices, since every step
consumes at least one character). -/
def splitRun (fuel : Nat) (acc l : List Char) : List (List Char) :=
  match l with
  | [] => [acc.reverse]
  | c :: cs =>
    match fuel with
    | 0 => [acc.reverse ++ c :: cs]
    | Nat.succ f =>
      match headingAt (c :: cs) with
      | some (cap, rest) => acc.reverse :: cap :: splitRun f [] rest
      | none => splitRun f (c :: acc) cs

/-- JS global `String.replace` with a literal pattern: every
non-overlapping occurrence of `pat`, scanned left to right, becomes
`rep`. -/
def replaceRun (fuel : Nat) (pat rep l : List Char) : List Char :=
  match l with
  | [] => []
  | c :: cs =>
    match fuel with
    | 0 => c :: cs
    | Nat.succ f =>
      if isPrefOf pat (c :: cs) then rep ++ replaceRun f pat rep ((c :: cs).drop pat.length)
      else c :: replaceRun f pat rep cs

/-- Replacement wrapper with the fuel fixed to the input length. -/
def jsReplaceAll (pat rep l : List Char) : List Char :=
  replaceRun l.length pat rep l

/-- Literal matched by the title regex. -/
def titleLit : List Char := "**CoLearn: Session Analysis**".data

/-- Literal matched by the subtitle regex. -/
def subtitleLit : List Char := "*Learning insights from your dialogue session*".data

/-- Literal part of the duration regex `\*\*Duration:\*\* `. -/
def durMarker : List Char := "**Duration:** ".data

/-- Continuation of the lazy capture `(.+?)(?=\*\*|$)` after at least
one character has been taken: stop as soon as the remainder is empty or
starts with two stars; fail on a line terminator, which `.` cannot
match. -/
def durGo (acc : List Char) : List Char → Option (List Char)
  | [] => some acc.reverse
  | '*' :: '*' :: _ => some acc.reverse
  | c :: cs =>
    if c = '\n' ∨ c = '\r' then none else durGo (c :: acc) cs

/-- The lazy capture `(.+?)(?=\*\*|$)` right after the duration
marker. -/
def durCap : List Char → Option (List Char)
  | [] => none
  | c :: cs => if c = '\n' ∨ c = '\r' then none else durGo [c] cs

/-- Search for the duration regex: at each position, match the literal
marker and then the lazy capture; on failure resume one character
later, as a regex engine does. -/
def durMatch : List Char → Option (List Char)
  | [] => none
  | c :: cs =>
    match (if isPrefOf durMarker (c :: cs) then durCap ((c :: cs).drop durMarker.length) else none) with
    | some cap => some cap
    | none => durMatch cs

/-- Header block rendered when title, subtitle and duration all
match. -/
structure HeaderBlock where
  title : String
  subtitle : String
  duration : String
deriving DecidableEq, Repr

/-- Presentation tag assigned to a section by the if-else chain on the
heading text (the default is the blue styling). -/
inductive SectionTag
  | sessionSummary
  | showedThinking
  | figuredOut
  | exploreFurther
  | reflectionSummary
  | learnerReflections
  | defaultTag
deriving DecidableEq, Repr

/-- Tag chain: `title.includes(...)` tests in source order. -/
def tagOf (t : List Char) : SectionTag :=
  if containsStr "Session Summary".data t then .sessionSummary
  else if containsStr "How You Showed".data t then .showedThinking
  else if containsStr "What You Figured".data t then .figuredOut
  else if containsStr "Ideas You Could".data t then .exploreFurther
  else if containsStr "Reflection Summary".data t then .reflectionSummary
  else if containsStr "Learner Reflections".data t then .learnerReflections
  else .defaultTag

/-- One parsed section: heading, trimmed body, presentation tag. -/
structure ParsedSection where
  title : String
  body : String
  tag : SectionTag
deriving DecidableEq, Repr

/-- Inline-emphasis rewrite applied only to the Learner Reflections
section body. -/
def learnerRewrite (b : List Char) : List Char :=
  jsReplaceAll "**Process Learning:**".data "<strong>Process Learning:</strong>".data
    (jsReplaceAll "**Content Learning:**".data "<strong>Content Learning:</strong>".data b)

/-- The section loop `for (let i = 1; i < sections.length; i += 2)`
over the tail of the split result: a pair is kept when both heading and
body are non-empty (JS truthiness); the Learner Reflections body is
rewritten, and every kept body is trimmed. -/
def buildSections : List (List Char) → List ParsedSection
  | t :: b :: rest =>
    (if t = [] ∨ b = [] then []
     else
       let tag := tagOf t
       let b1 := if tag = SectionTag.learnerReflections then learnerRewrite b else b
       [⟨String.mk t, String.mk (trimChars b1), tag⟩]) ++ buildSections rest
  | _ => []

/-- Combined header extraction: `titleMatch && subtitleMatch &&
durationMatch`. -/
def headerOf (l : List Char) : Option HeaderBlock :=
  if containsStr titleLit l && containsStr subtitleLit l then
    match durMatch l with
    | some d => some ⟨"CoLearn: Session Analysis",
        "Learning insights from your dialogue session", String.mk d⟩
    | none => none
  else none

/-- Result of the parsing IIFE: the optional header box and the ordered
section boxes. -/
structure ParseResult where
  header : Option HeaderBlock
  sections : List ParsedSection
deriving DecidableEq, Repr

/-- The whole parsing IIFE on the raw analysis text. -/
def parseAnalysis (content : String) : ParseResult :=
  let l := content.data
  let parts := splitRun l.length [] l
  { header := headerOf l, sections := buildSections parts.tail }

/-- Number of entries of a given kind in a log. -/
def countKind (k : MsgKind) (l : List DialogueMessage) : Nat :=
  (l.filter (fun m => decide (m.kind = k))).length

/-- Consistency between the log and the reflections list: the
reflection-kind entries of the dialogue log are exactly the elements of
`reflectionPrompts`, in order. -/
def reflInv (s : AppState) : Prop :=
  s.dialogue.filter (fun m => decide (m.kind = MsgKind.reflection)) = s.reflectionPrompts

/-- A three-entry transcript as produced by a started session: the
initial system entry, the focus-question user entry and the first AI
reply. -/
def threeEntryDialogue : List DialogueMessage :=
  [ ⟨.system, "CoLearn session started. Focus question: \"What is the main claim?\"", none, none⟩
  , ⟨.user, "What is the main claim?", some "t0", none⟩
  , ⟨.ai, "The article argues that tides are predictable.", some "t0", none⟩ ]

/-- A concrete started session after exchange 1. -/
def activeState : AppState :=
  { initialState with
    sessionActive := true
    sessionStartTime := some 1000
    focusQuestion := "What is the main claim?"
    sourceText := "Article text"
    dialogue := threeEntryDialogue
    exchangeCount := 1 }

/-- The same session with only two log entries (before the first AI
reply). -/
def shortState : AppState :=
  { activeState with dialogue := threeEntryDialogue.take 2 }

/-- A locked session with pending input. -/
def lockedState : AppState :=
  { activeState with sessionLocked := true, currentInput := "more thoughts" }

/-- An active session with pending input, used to exercise a turn. -/
def typedState : AppState :=
  { activeState with currentInput := "why though" }

/-- An active session at exchange count 3 about to send the turn that
makes the count 4 and schedules the deferred reflection trigger. -/
def c10State : AppState :=
  { activeState with exchangeCount := 3, currentInput := "tell me more" }

/-- An analysis text following the REQUIRED FORMAT template of the
analysis prompt: title line, subtitle line, duration line, and six bold
numbered section headings with non-empty bodies. -/
def wellFormedAnalysis : String :=
  "**CoLearn: Session Analysis**\n*Learning insights from your dialogue session*\n\n**Duration:** 5m 12s\n\n**1. Session Summary**\nThe session explored tidal energy.\n\n**2. How You Showed Your Thinking**\nYou asked probing questions.\n\n**3. What You Figured Out**\nYou identified the core tradeoff.\n\n**4. Ideas You Could Explore Further**\nLook into storage costs.\n\n**5. Reflection Summary**\nYou engaged steadily.\n\n**6. Learner Reflections**\nThe learner wrote thoughtful closing notes.\n"

/-- A malformed analysis text: no template parts at all. -/
def malformedRaw : String := "hello"

/-- Another malformed analysis text, used to instantiate the general
malformed-input theorem. -/
def malformedNotes : String := "Some plain notes\nwith no headings."

/-! Helper lemmas shared by the claim theorems. -/

theorem countKind_append (k : MsgKind) (a b : List DialogueMessage) :
    countKind k (a ++ b) = countKind k a + countKind k b := by
  simp [countKind, List.filter_append]

/-!
C1.  The claim reads the trigger set as at 4, at 8, and thereafter
every 6 exchanges past 8 (14, 20, 26, ...).  The code's condition is
`n === 4 || n === 8 || (n > 8 && n % 6 === 0)`, whose set past 8 is
the multiples of 6: 12, 18, 24, ...
-/

/-- C1 (counterexample).  The trigger decision disagrees with the
claimed set {4, 8, 14, 20, 26, ...}: it fires at exchange 12 (not in
the claimed set) and does not fire at exchange 14 (in the claimed
set). -/
theorem c1_reflection_trigger_counterexample :
    shouldTrigger 12 = true ∧ shouldTrigger 14 = false := by
  decide

/-- C1 (amended).  The reflection trigger decision is true exactly for
exchange counts 4, 8, and the multiples of 6 that are at least 12
(12, 18, 24, ...), and false for every other count. -/
theorem c1_reflection_trigger_set (n : Nat) :
    shouldTrigger n = true ↔ (n = 4 ∨ n = 8 ∨ (12 ≤ n ∧ n % 6 = 0)) := by
  unfold shouldTrigger
  simp only [Bool.or_eq_true, beq_iff_eq, Bool.and_eq_true, decide_eq_true_eq]
  omega

/-- C1 (witness): the amended characterization applied at exchange
count 18. -/
theorem c1_reflection_trigger_witness : shouldTrigger 18 = true :=
  (c1_reflection_trigger_set 18).mpr (Or.inr (Or.inr ⟨by decide, by decide⟩))

/-!
C5.  Stage derivation from the exchange count.
-/

/-- C5.  For every exchange count `n`, the derived stage is Ground when
`n ≤ 4`, Stretch when `5 ≤ n ≤ 8` and Deepen when `n > 8`; the
derivation is the total function `stageOf` of `n` alone, and the phase
label the dialogue screen computes from `n` agrees with it. -/
theorem c5_stage_derivation (n : Nat) :
    (n ≤ 4 → stageOf n = Stage.ground)
    ∧ (5 ≤ n ∧ n ≤ 8 → stageOf n = Stage.stretch)
    ∧ (8 < n → stageOf n = Stage.deepen)
    ∧ displayPhase n = phaseLabel (stageOf n) := by
  refine ⟨fun h => ?_, fun h => ?_, fun h => ?_, ?_⟩
  · simp [stageOf, h]
  · have h1 : ¬ n ≤ 4 := by omega
    simp [stageOf, h1, h.2]
  · have h1 : ¬ n ≤ 4 := by omega
    have h2 : ¬ n ≤ 8 := by omega
    simp [stageOf, h1, h2]
  · by_cases h1 : n ≤ 4
    · simp [stageOf, displayPhase, phaseLabel, h1]
    · by_cases h2 : n ≤ 8 <;> simp [stageOf, displayPhase, phaseLabel, h1, h2]

/-- C5 (witness): the characterization applied at exchange count 6. -/
theorem c5_stage_derivation_witness : stageOf 6 = Stage.stretch :=
  (c5_stage_derivation 6).2.1 ⟨by decide, by decide⟩

/-!
C8.  The silent no-op guard of `handleSendMessage`.
-/

/-- C8.  A dialogue turn is a silent no-op — state unchanged, nothing
appended, no deferred action, and (since the result is the same for
every gateway outcome `g`) no gateway call — whenever the input is
empty after trimming, a prior call is still pending, or the session is
locked; in particular a locked session never gains another user
entry. -/
theorem c8_sendturn_silent_noop (s : AppState) (now : String) (g : GatewayResult)
    (h : jsTrim s.currentInput = "" ∨ s.isProcessing = true ∨ s.sessionLocked = true) :
    sendTurn s now g = (s, []) := by
  unfold sendTurn
  rw [if_pos h]

/-- C8 (witness): the no-op applied to a locked session with non-empty
pending input. -/
theorem c8_sendturn_silent_noop_witness :
    sendTurn lockedState "t1" (GatewayResult.success "reply") = (lockedState, []) :=
  c8_sendturn_silent_noop lockedState "t1" (GatewayResult.success "reply")
    (Or.inr (Or.inr rfl))

/-!
C4.  Analysis generation failure in `handleEndReflectionSubmit`.
-/

/-- C4.  When the gateway call of `handleEndReflectionSubmit` fails,
the stored analysis content is the fixed failure placeholder, and for
every gateway outcome the session analysis is set, the end-reflection
screen is closed and the processing flag cleared — the session reaches
the Analyzed state unconditionally. -/
theorem c4_analysis_failure_placeholder (s : AppState) :
    (handleEndReflectionSubmit s GatewayResult.failure).sessionAnalysis
      = some ⟨analysisFailureText,
          ⟨orDefaultRefl s.endReflectionAnswers.1, orDefaultRefl s.endReflectionAnswers.2⟩⟩
    ∧ (∀ g, (handleEndReflectionSubmit s g).sessionAnalysis.isSome = true)
    ∧ (∀ g, (handleEndReflectionSubmit s g).showEndReflection = false)
    ∧ (∀ g, (handleEndReflectionSubmit s g).isProcessing = false) := by
  refine ⟨rfl, fun g => ?_, fun g => ?_, fun g => ?_⟩ <;> cases g <;> rfl

/-- C4 (witness): the failure placeholder stored on a concrete
session. -/
theorem c4_analysis_failure_witness :
    (handleEndReflectionSubmit activeState GatewayResult.failure).sessionAnalysis
      = some ⟨analysisFailureText, ⟨"No reflection provided", "No reflection provided"⟩⟩ :=
  (c4_analysis_failure_placeholder activeState).1

/-!
C2.  Locking: the End Session button guard plus `lockSession`.
-/

/-- C2.  Locking a session whose log has fewer than 3 entries fails
with the precondition error, handing no new state back to the caller;
on a started session whose log has 3 or more entries it succeeds,
computes the duration, sets the locked flag and opens the
end-reflection screen, leaving the log unchanged. -/
theorem c2_lock_precondition_and_success (s : AppState) (endMs : Nat)
    (g : GatewayResult) (idx : Nat) :
    (s.dialogue.length < 3 →
      lockSession s endMs g idx = Except.error LockError.preconditionError)
    ∧ (∀ st, s.sessionStartTime = some st → 3 ≤ s.dialogue.length →
      ∃ s2, lockSession s endMs g idx = Except.ok s2
        ∧ s2.sessionLocked = true
        ∧ s2.sessionDuration = some ⟨(endMs - st) / 60000, (endMs - st) % 60000 / 1000⟩
        ∧ s2.showEndReflection = true
        ∧ s2.dialogue = s.dialogue) := by
  constructor
  · intro h
    unfold lockSession
    rw [if_pos h]
  · intro st hst hlen
    unfold lockSession
    rw [if_neg (by omega), hst]
    exact ⟨_, rfl, rfl, rfl, rfl, rfl⟩

/-- C2 (witness): locking fails on a two-entry log and succeeds on a
three-entry log, where it computes the 3m 19s duration and locks. -/
theorem c2_lock_witness :
    lockSession shortState 200000 GatewayResult.failure 0
      = Except.error LockError.preconditionError
    ∧ ∃ s2, lockSession activeState 200000 GatewayResult.failure 0 = Except.ok s2
        ∧ s2.sessionLocked = true
        ∧ s2.sessionDuration = some ⟨3, 19⟩
        ∧ s2.showEndReflection = true
        ∧ s2.dialogue = activeState.dialogue :=
  ⟨(c2_lock_precondition_and_success shortState 200000 GatewayResult.failure 0).1 (by decide),
   (c2_lock_precondition_and_success activeState 200000 GatewayResult.failure 0).2 1000
     rfl (by decide)⟩

/-!
C3.  Gateway failure during a dialogue turn.
-/

/-- C3.  When the gateway call of a non-rejected dialogue turn fails,
the log gains the user entry and exactly one system-kind entry carrying
the error content and no ai entry, the exchange count is still
incremented, the session stays Active (active flag unchanged, not
locked, no analysis), and the processing flag is false afterwards. -/
theorem c3_turn_failure_recovery (s : AppState) (now : String)
    (h1 : jsTrim s.currentInput ≠ "") (h2 : s.isProcessing = false)
    (h3 : s.sessionLocked = false) :
    (sendTurn s now GatewayResult.failure).1.dialogue
      = s.dialogue ++ [⟨.user, s.currentInput, some now, none⟩,
          ⟨.system, errorContinueMsg, some now, none⟩]
    ∧ countKind .system (sendTurn s now GatewayResult.failure).1.dialogue
      = countKind .system s.dialogue + 1
    ∧ countKind .ai (sendTurn s now GatewayResult.failure).1.dialogue
      = countKind .ai s.dialogue
    ∧ (sendTurn s now GatewayResult.failure).1.exchangeCount = s.exchangeCount + 1
    ∧ (sendTurn s now GatewayResult.failure).1.sessionActive = s.sessionActive
    ∧ (sendTurn s now GatewayResult.failure).1.sessionLocked = false
    ∧ (sendTurn s now GatewayResult.failure).1.sessionAnalysis = s.sessionAnalysis
    ∧ (sendTurn s now GatewayResult.failure).1.isProcessing = false := by
  have hg : ¬(jsTrim s.currentInput = "" ∨ s.isProcessing = true ∨ s.sessionLocked = true) := by
    simp [h1, h2, h3]
  have he : sendTurn s now GatewayResult.failure =
      ({ s with
          dialogue := (s.dialogue ++ [⟨.user, s.currentInput, some now, none⟩])
            ++ [⟨.system, errorContinueMsg, some now, none⟩]
          currentInput := ""
          isProcessing := false
          exchangeCount := s.exchangeCount + 1 },
        if s.exchangeCount + 1 = 5 then [.stageNote stageNote5]
        else if s.exchangeCount + 1 = 9 then [.stageNote stageNote9]
        else []) := by
    unfold sendTurn
    rw [if_neg hg]
  have hu : countKind .system [(⟨.user, s.currentInput, some now, none⟩ : DialogueMessage)] = 0 := rfl
  have hus : countKind .ai [(⟨.user, s.currentInput, some now, none⟩ : DialogueMessage)] = 0 := rfl
  have hes : countKind .system [(⟨.system, errorContinueMsg, some now, none⟩ : DialogueMessage)] = 1 := rfl
  have hea : countKind .ai [(⟨.system, errorContinueMsg, some now, none⟩ : DialogueMessage)] = 0 := rfl
  rw [he]
  refine ⟨by simp, ?_, ?_, rfl, rfl, h3, rfl, rfl⟩
  · simp only [countKind_append, hu, hes]
  · simp only [countKind_append, hus, hea]
    omega

/-- C3 (witness): the failed turn on a concrete session gains exactly
one system entry. -/
theorem c3_turn_failure_recovery_witness :
    countKind .system (sendTurn typedState "t9" GatewayResult.failure).1.dialogue
      = countKind .system typedState.dialogue + 1 :=
  (c3_turn_failure_recovery typedState "t9" (by decide) rfl rfl).2.1

/-!
C10.  Stale deferred callbacks across `reset()`.

Sending a message at exchange count 3 schedules the 1000ms deferred
`triggerReflectionPrompt(4)`.  `resetSession` cancels nothing and the
deferred callback checks no session identity: fired after the reset it
still opens the reflection modal and installs a prompt on the fresh
session.
-/

/-- C10 (code bug).  A deferred reflection trigger scheduled before
`reset()` mutates the post-reset state when it fires: the reset state
has the modal closed, and firing the stale trigger opens it and sets
the current reflection prompt — no identity or validity check
intervenes, contradicting the claimed guarantee. -/
theorem c10_stale_deferred_mutation :
    (sendTurn c10State "t1" (GatewayResult.success "reply")).2
      = [Deferred.reflectTrigger 4]
    ∧ (resetSession (sendTurn c10State "t1" (GatewayResult.success "reply")).1).dialogue = []
    ∧ (resetSession (sendTurn c10State "t1"
        (GatewayResult.success "reply")).1).showReflectionModal = false
    ∧ (applyDeferred (resetSession (sendTurn c10State "t1" (GatewayResult.success "reply")).1)
        (Deferred.reflectTrigger 4) "t2" GatewayResult.failure).showReflectionModal = true
    ∧ (applyDeferred (resetSession (sendTurn c10State "t1" (GatewayResult.success "reply")).1)
        (Deferred.reflectTrigger 4) "t2" GatewayResult.failure).currentReflection
      = earlyReflPrompt := by
  refine ⟨rfl, rfl, rfl, rfl, rfl⟩

/-!
C9.  Reflection bookkeeping: `submitReflection` is the sole operation
that adds to either `reflections` or the reflection-kind log entries,
and it adds the same record to both at once.
-/

/-- C9.  A reflection is added only as the pair of the scheduler's
prompt (`currentReflection`) and the user's response, and the addition
appends exactly one matching reflection-kind log entry; the
consistency between the two lists (`reflInv`: the reflection-kind log
entries are exactly the reflections, in order) is preserved by
`submitReflection` and by every other session operation. -/
theorem c9_reflection_consistency (s : AppState) (text now : String) :
    (submitReflection s text now).reflectionPrompts
      = s.reflectionPrompts ++ [⟨.reflection, text, some now, some s.currentReflection⟩]
    ∧ (submitReflection s text now).dialogue
      = s.dialogue ++ [⟨.reflection, text, some now, some s.currentReflection⟩]
    ∧ (reflInv s → reflInv (submitReflection s text now))
    ∧ (∀ g, reflInv s → reflInv (sendTurn s now g).1)
    ∧ (∀ endMs g idx s2, reflInv s → lockSession s endMs g idx = Except.ok s2 → reflInv s2)
    ∧ (∀ g, reflInv s → reflInv (handleEndReflectionSubmit s g))
    ∧ reflInv (resetSession s)
    ∧ (∀ d g, reflInv s → reflInv (applyDeferred s d now g)) := by
  refine ⟨rfl, rfl, ?_, ?_, ?_, ?_, rfl, ?_⟩
  · intro h
    simp only [reflInv, submitReflection, List.filter_append] at h ⊢
    simp [h]
  · intro g h
    by_cases hg : jsTrim s.currentInput = "" ∨ s.isProcessing = true ∨ s.sessionLocked = true
    · simpa [sendTurn, hg] using h
    · cases g <;>
        · simp only [reflInv, sendTurn, if_neg hg, List.filter_append] at h ⊢
          simp [h]
  · intro endMs g idx s2 h hok
    by_cases hlen : s.dialogue.length < 3
    · rw [lockSession.eq_def, if_pos hlen] at hok
      exact absurd hok (by simp)
    · rw [lockSession.eq_def, if_neg hlen] at hok
      cases hst : s.sessionStartTime <;> rw [hst] at hok <;>
        · simp only [Except.ok.injEq] at hok
          subst hok
          exact h
  · intro g h
    cases g <;> simpa [reflInv, handleEndReflectionSubmit] using h
  · intro d g h
    cases d with
    | stageNote c =>
      simp only [reflInv, applyDeferred, List.filter_append] at h ⊢
      simp [h]
    | reflectTrigger n => simpa [reflInv, applyDeferred, triggerReflection] using h
    | continueNote => simpa [reflInv, applyDeferred] using h

/-- C9 (witness): submitting a reflection on a concrete consistent
session keeps the two lists consistent. -/
theorem c9_reflection_consistency_witness :
    reflInv (submitReflection activeState "my thoughts" "t5") :=
  (c9_reflection_consistency activeState "my thoughts" "t5").2.2.1 rfl

/-!
C6.  Totality and degradation of the Analysis Parser.

The parser is a total function by construction.  The claimed
degradation is wrong about the code: when the heading pattern matches
nowhere, the split yields the whole text as the single fragment at
index 0, the section loop (which starts at index 1) produces no
sections, and the raw text is not retained.
-/

theorem splitRun_of_not_hasHeading (l : List Char) :
    ∀ (fuel : Nat) (acc : List Char), l.length ≤ fuel → hasHeading l = false →
      splitRun fuel acc l = [acc.reverse ++ l] := by
  induction l with
  | nil =>
    intro fuel acc _ _
    cases fuel <;> simp [splitRun]
  | cons c cs ih =>
    intro fuel acc hf hh
    simp only [hasHeading] at hh
    cases hA : headingAt (c :: cs) with
    | some v =>
      rw [hA] at hh
      simp at hh
    | none =>
      rw [hA] at hh
      simp only [Option.isSome_none, Bool.false_or] at hh
      cases fuel with
      | zero => simp at hf
      | succ f =>
        rw [splitRun.eq_def]
        simp only [hA]
        rw [ih f (c :: acc) (by simpa using hf) hh]
        simp

/-- C6 (counterexample).  On the malformed input "hello" the parse
yields no sections at all — in particular not a single unlabeled
section containing the raw text, which would make the list have length
one. -/
theorem c6_parser_malformed_counterexample :
    (parseAnalysis malformedRaw).sections = []
    ∧ (parseAnalysis malformedRaw).sections.length ≠ 1
    ∧ (parseAnalysis malformedRaw).header = none := by
  refine ⟨rfl, by decide, rfl⟩

/-- C6 (amended).  The Analysis Parser is total — it is a function
returning a `ParseResult` on every input and can never throw — and on
malformed input, where the bold numbered-heading pattern matches
nowhere, it degrades to an empty section list: the raw text is dropped
rather than kept as an unlabeled section. -/
theorem c6_parser_total_malformed (s : String)
    (h : hasHeading s.data = false) :
    (parseAnalysis s).sections = [] := by
  unfold parseAnalysis
  simp only [splitRun_of_not_hasHeading s.data s.data.length [] le_rfl h]
  rfl

/-- C6 (witness): the malformed-input theorem applied to a concrete
heading-free text. -/
theorem c6_parser_total_malformed_witness :
    (parseAnalysis malformedNotes).sections = [] :=
  c6_parser_total_malformed malformedNotes (by decide)

/-!
C7.  Parsing a well-formed template-conforming analysis text.

The six numbered sections come out in source order, with bodies equal
to the source bodies after trimming.  The header block, however, is
NOT populated: the duration regex `\*\*Duration:\*\* (.+?)(?=\*\*|$)`
cannot match when a newline follows the duration value, because `.`
does not match line terminators and the lookahead demands `**` or the
end of input immediately after the capture.  The REQUIRED FORMAT that
the code's own analysis prompt mandates puts the duration value at the
end of its line, so the code omits the header exactly on the input
format it prescribes for itself.
-/

set_option maxRecDepth 100000 in
/-- C7 (code bug).  Parsing the template-conforming
`wellFormedAnalysis` yields exactly the six sections in source order
with trimmed bodies and the expected tags, yet — although the text
contains the title, subtitle and duration lines — the header block is
`none`, because the duration pattern fails at the newline after the
value. -/
theorem c7_wellformed_template_parse :
    (parseAnalysis wellFormedAnalysis).sections.map ParsedSection.title
      = ["1. Session Summary", "2. How You Showed Your Thinking",
         "3. What You Figured Out", "4. Ideas You Could Explore Further",
         "5. Reflection Summary", "6. Learner Reflections"]
    ∧ (parseAnalysis wellFormedAnalysis).sections.map ParsedSection.body
      = ["The session explored tidal energy.", "You asked probing questions.",
         "You identified the core tradeoff.", "Look into storage costs.",
         "You engaged steadily.", "The learner wrote thoughtful closing notes."]
    ∧ (parseAnalysis wellFormedAnalysis).sections.map ParsedSection.tag
      = [.sessionSummary, .showedThinking, .figuredOut, .exploreFurther,
         .reflectionSummary, .learnerReflections]
    ∧ (parseAnalysis wellFormedAnalysis).sections.length = 6
    ∧ containsStr titleLit wellFormedAnalysis.data = true
    ∧ containsStr subtitleLit wellFormedAnalysis.data = true
    ∧ containsStr durMarker wellFormedAnalysis.data = true
    ∧ (parseAnalysis wellFormedAnalysis).header = none := by
  refine ⟨rfl, rfl, rfl, rfl, rfl, rfl, rfl, rfl⟩

end CoLearn
